import Mathlib

/-!
# Verification of the derivatives-tracking ingestion-and-scoring core

A shallow embedding, in Lean 4, of the core components of the repository:

* `RiskScoringEngine` (`apps/api/app/risk/scoring.py`): the composite risk
  score built from volatility, drawdown, liquidity and base-tier components.
* `RateLimiter` (`apps/api/app/utils/rate_limiter.py`): per-service request
  spacing and exponential-backoff-with-jitter retry wrapper.
* `MemoryCache` (`apps/api/app/cache/memory.py`): TTL key/value cache.
* `ETLPipeline` (`apps/api/app/etl/pipeline.py`): the ingestion cycle.

Numeric values (Python floats) are modelled as rationals `ℚ`, i.e. exact real
arithmetic; all breakpoint comparisons in the sources are between finitely
representable decimal values, so this is the intended arithmetic reading of
the algorithms. Timestamps and clock readings are likewise rationals.
-/

namespace DerivativesTracking

/-! ## Risk scoring engine (`apps/api/app/risk/scoring.py`) -/

namespace Risk

/-- The `RiskTier` enum that `from ..models import RiskTier` (scoring.py
line 9) actually binds.  `app/models/__init__.py` defines an int enum
`RiskTier` at lines 25–30 (`CASH_CORE, YIELD_PLUS, MARKET_BETA,
TACTICAL_EDGE, MOON_SHOT`), but its final import
`from .crypto import Asset, AssetMetric, Market, Sector, RiskTier` rebinds
the name, so the exported `RiskTier` is `models/crypto.py`'s str enum
(lines 25–29), whose only members are these four. -/
inductive RiskTier where
  | LOW
  | MEDIUM
  | HIGH
  | EXTREME
deriving DecidableEq, Repr

/-- `getattr(RiskTier, name)` on the imported enum: the four declared
members resolve, every other name — in particular each of the six names the
scoring table uses, and also the shadowed int enum's other members — raises
`AttributeError` (`none`). -/
def riskTier_attr : String → Option RiskTier
  | "LOW" => some .LOW
  | "MEDIUM" => some .MEDIUM
  | "HIGH" => some .HIGH
  | "EXTREME" => some .EXTREME
  | _ => none

/-- The `self.base_scores` dict literal of `RiskScoringEngine.__init__`
(scoring.py lines 39–46) as written: each key is an attribute access
`RiskTier.<name>` on the imported enum, paired with its score, in source
order. -/
def base_scores_keys : List (String × ℚ) :=
  [("CASH_CORE", 1), ("INCOME", 2), ("INCOME_PLUS", 5/2),
   ("BALANCED", 3), ("GROWTH", 4), ("AGGRESSIVE", 5)]

/-- Evaluating a dict literal whose keys are attribute accesses: keys are
evaluated left to right, and the first missing member raises
`AttributeError` before the dictionary exists. -/
def build_table : List (String × ℚ) → Except String (List (RiskTier × ℚ))
  | [] => .ok []
  | (name, score) :: rest =>
    match riskTier_attr name with
    | none => .error ("AttributeError: " ++ name)
    | some t => (build_table rest).map (fun tb => (t, score) :: tb)

/-- `RiskScoringEngine.__init__` (scoring.py lines 28–46): constructing the
engine evaluates the `base_scores` dict literal. -/
def riskScoringEngine_init : Except String (List (RiskTier × ℚ)) :=
  build_table base_scores_keys

/-- `self.base_scores.get(asset.risk_tier, 3.0)` (scoring.py lines 109 and
121): lookup in the constructed table with default `3.0`. -/
def table_get : List (RiskTier × ℚ) → RiskTier → ℚ
  | [], _ => 3
  | (t, s) :: rest, tier => if t = tier then s else table_get rest tier

/-- `np.diff(prices) / prices[:-1]` (scoring.py line 182): the simple return
of each consecutive pair of prices. -/
def simpleReturns (prices : List ℚ) : List ℚ :=
  List.zipWith (fun prev next => (next - prev) / prev) prices prices.tail

/-- Arithmetic mean of a list, `sum(xs) / len(xs)` (with the Lean convention
`x / 0 = 0` for the empty list, a case the callers guard against). -/
def listMean (xs : List ℚ) : ℚ := xs.sum / xs.length

/-- Population variance, the square of `np.std(xs)`. -/
def popVariance (xs : List ℚ) : ℚ :=
  listMean (xs.map (fun x => (x - listMean xs) ^ 2))

/-- `_calculate_volatility_score` (scoring.py lines 165–200).

The source computes `volatility = np.std(returns) * np.sqrt(365)` and
compares it against the breakpoints `0.005, 0.02, 0.05, 0.10, 0.20`.  Both
sides of each comparison are non-negative, so `std * sqrt 365 < t` holds iff
`365 * variance < t ^ 2`; the embedding uses the squared comparisons, which
keeps the definition inside exact rational arithmetic. -/
def calculate_volatility_score (price_data : List ℚ) : ℚ :=
  if price_data.length < 2 then 1
  else
    let annVarSq : ℚ := 365 * popVariance (simpleReturns price_data)
    if annVarSq < (5/1000) ^ 2 then 1
    else if annVarSq < (2/100) ^ 2 then 2
    else if annVarSq < (5/100) ^ 2 then 5/2
    else if annVarSq < (10/100) ^ 2 then 3
    else if annVarSq < (20/100) ^ 2 then 4
    else 5

/-- Helper for `np.maximum.accumulate`: running maxima of the list, each
element also capped below by the accumulator `m`. -/
def runningMaxAux (m : ℚ) : List ℚ → List ℚ
  | [] => []
  | h :: t => max m h :: runningMaxAux (max m h) t

/-- `np.maximum.accumulate(prices)` (scoring.py line 219). -/
def runningMax : List ℚ → List ℚ
  | [] => []
  | h :: t => h :: runningMaxAux h t

/-- `np.max` over a list; the `[]` case returns `0` but every caller guards
with `length ≥ 2`, so it is unreachable. -/
def listMax : List ℚ → ℚ
  | [] => 0
  | h :: t => t.foldl max h

/-- `_calculate_drawdown_score` (scoring.py lines 202–239): maximum of
`(runningMax - price) / runningMax`, mapped through fixed breakpoints. -/
def calculate_drawdown_score (price_data : List ℚ) : ℚ :=
  if price_data.length < 2 then 1
  else
    let drawdowns :=
      List.zipWith (fun m p => (m - p) / m) (runningMax price_data) price_data
    let max_drawdown := listMax drawdowns
    if max_drawdown < 1/1000 then 1
    else if max_drawdown < 1/100 then 2
    else if max_drawdown < 3/100 then 5/2
    else if max_drawdown < 10/100 then 3
    else if max_drawdown < 20/100 then 4
    else 5

/-- `_calculate_liquidity_score` (scoring.py lines 241–288), applied to the
list of `volume_24h` metric values found in the window: mean volume mapped
through fixed breakpoints, with the conservative default `4.0` when no
volume data exists. -/
def calculate_liquidity_score (volumes : List ℚ) : ℚ :=
  if volumes.isEmpty then 4
  else
    let avg_volume := volumes.sum / volumes.length
    if 1000000000 < avg_volume then 1
    else if 100000000 < avg_volume then 2
    else if 10000000 < avg_volume then 3
    else if 1000000 < avg_volume then 4
    else 5

/-- The body of `calculate_asset_risk_score` (scoring.py lines 85–132),
given an engine whose `base_scores` table is `table`, as a function of the
`price_usd` values and `volume_24h` values retrieved for the lookback window
(timestamps only determine which points are in the window and their order,
both already reflected in the lists) and of the asset's risk tier.
`if not price_data or len(price_data) < 7` is equivalent to
`price_data.length < 7`. -/
def calculate_asset_risk_score (table : List (RiskTier × ℚ))
    (prices volumes : List ℚ) (tier : RiskTier) : ℚ :=
  if prices.length < 7 then table_get table tier
  else
    min (max (4/10 * calculate_volatility_score prices
      + 3/10 * calculate_drawdown_score prices
      + 2/10 * calculate_liquidity_score volumes
      + 1/10 * table_get table tier) 1) 5

/-- A full scoring run: every caller (`calculate_risk_scores`,
`ETLPipeline.__init__` at pipeline.py line 31) first constructs
`RiskScoringEngine()`, so a score can only be produced if `__init__`
completes; an `AttributeError` raised there propagates instead. -/
def calculate_asset_risk_score_run (prices volumes : List ℚ)
    (tier : RiskTier) : Except String ℚ :=
  riskScoringEngine_init.map
    (fun table => calculate_asset_risk_score table prices volumes tier)

end Risk

/-! ## Rate limiter (`apps/api/app/utils/rate_limiter.py`) -/

namespace RateLimiter

/-- The per-service configuration stored by `configure_limit`
(rate_limiter.py lines 36–65).  `interval` is derived as
`60.0 / calls_per_minute` and is kept derived here. -/
structure ServiceConfig where
  calls_per_minute : ℚ
  max_retries : ℕ
  base_delay : ℚ
  max_delay : ℚ
  jitter : ℚ
deriving DecidableEq, Repr

/-- The default configuration (rate_limiter.py lines 28–34 and 36–44). -/
def defaultConfig : ServiceConfig :=
  { calls_per_minute := 60, max_retries := 5, base_delay := 1,
    max_delay := 60, jitter := 1/4 }

/-- `interval = 60.0 / calls_per_minute` (rate_limiter.py line 58). -/
def interval_of (cfg : ServiceConfig) : ℚ := 60 / cfg.calls_per_minute

/-- `calculate_retry_delay` (rate_limiter.py lines 90–105).  `u` is the value
returned by `random.uniform(-jitter_amount, jitter_amount)`; a valid draw
satisfies `|u| ≤ cfg.jitter * min cfg.max_delay (cfg.base_delay * 2 ^ attempt)`.
The final `max 0.1` is the source's `return max(0.1, delay)`. -/
def calculate_retry_delay (cfg : ServiceConfig) (attempt : ℕ) (u : ℚ) : ℚ :=
  max (1/10) (min cfg.max_delay (cfg.base_delay * 2 ^ attempt) + u)

/-- One invocation of the wrapped request function inside `with_retry`: it
either raises an exception (message `e`) or returns a response object with an
optional `status_code` attribute, optional `Retry-After` header value, and a
body. -/
inductive AttemptOutcome where
  | exn (e : String)
  | resp (status : Option ℕ) (retryAfter : Option ℚ) (body : String)
deriving DecidableEq, Repr

/-- The final behaviour of a `with_retry`-wrapped call: either the response
returned to the caller or the exception propagated to it. -/
inductive RetryResult where
  | ok (status : Option ℕ) (retryAfter : Option ℚ) (body : String)
  | raised (e : String)
deriving DecidableEq, Repr

/-- The default retryable status codes (rate_limiter.py line 143). -/
def default_retry_status_codes : List ℕ := [429, 500, 502, 503, 504]

/-- `status_code is not None and status_code in retry_on_status_codes`
(rate_limiter.py line 161). -/
def isRetryStatus (retrySet : List ℕ) : Option ℕ → Bool
  | none => false
  | some s => retrySet.contains s

/-- The retry loop body of `with_retry` (rate_limiter.py lines 151–189),
starting at attempt index `attempt` with `rem` loop iterations left
(`rem = max_retries + 1 - attempt` at every reachable call).  `outcomes n`
is what the wrapped function does on attempt `n`; `draws n` is the jitter
drawn for the delay after attempt `n`.  The result pairs the list of delays
slept between attempts with the final outcome.  The `rem = 0` branch is the
source's unreachable trailing `raise RuntimeError` after the `for` loop. -/
def withRetryAux (cfg : ServiceConfig) (retrySet : List ℕ)
    (outcomes : ℕ → AttemptOutcome) (draws : ℕ → ℚ) :
    ℕ → ℕ → List ℚ × RetryResult
  | _, 0 => ([], .raised "Unexpected end of retry loop")
  | attempt, rem + 1 =>
    match outcomes attempt with
    | .resp st ra body =>
        if isRetryStatus retrySet st = true ∧ attempt < cfg.max_retries then
          let d := calculate_retry_delay cfg attempt (draws attempt)
          let rest := withRetryAux cfg retrySet outcomes draws (attempt + 1) rem
          (d :: rest.1, rest.2)
        else ([], .ok st ra body)
    | .exn e =>
        if attempt < cfg.max_retries then
          let d := calculate_retry_delay cfg attempt (draws attempt)
          let rest := withRetryAux cfg retrySet outcomes draws (attempt + 1) rem
          (d :: rest.1, rest.2)
        else ([], .raised e)

/-- `with_retry` (rate_limiter.py lines 125–192): run the loop from attempt 0;
the `for` loop performs `max_retries + 1` iterations. -/
def with_retry (cfg : ServiceConfig) (retrySet : List ℕ)
    (outcomes : ℕ → AttemptOutcome) (draws : ℕ → ℚ) : List ℚ × RetryResult :=
  withRetryAux cfg retrySet outcomes draws 0 (cfg.max_retries + 1)

/-- `wait_for_rate_limit` (rate_limiter.py lines 73–88), as the new
`last_call_time` it records.  When `now - last < iv` the coroutine sleeps
`iv - (now - last)` and then stores a fresh `time.time()`, which under an
exact sleep is `last + iv`; otherwise it stores the fresh reading `now`.
`eps ≥ 0` is the extra real time the scheduler may add on top of the
requested sleep (and covers the gap between the two clock readings). -/
def wait_for_rate_limit (iv last now eps : ℚ) : ℚ :=
  (if now - last < iv then last + iv else now) + eps

/-- The recorded `last_call_time` after a sequence of calls, each described
by its entry clock reading `now` and scheduling slack `eps`. -/
def last_dispatch (iv : ℚ) : ℚ → List (ℚ × ℚ) → ℚ
  | last, [] => last
  | last, (now, eps) :: rest =>
      last_dispatch iv (wait_for_rate_limit iv last now eps) rest

/-- Two attempt outcomes that agree except possibly on the `Retry-After`
header value. -/
def sameExceptRetryAfter : AttemptOutcome → AttemptOutcome → Prop
  | .exn e1, .exn e2 => e1 = e2
  | .resp st1 _ b1, .resp st2 _ b2 => st1 = st2 ∧ b1 = b2
  | _, _ => False

/-- A run whose first attempt gets a 429 response carrying `Retry-After: 3`
and whose second attempt succeeds. -/
def outcomesRetryAfter : ℕ → AttemptOutcome := fun n =>
  if n = 0 then .resp (some 429) (some 3) "rate limited"
  else .resp (some 200) none "ok"

/-- The same run with the `Retry-After` header absent. -/
def outcomesNoRetryAfter : ℕ → AttemptOutcome := fun n =>
  if n = 0 then .resp (some 429) none "rate limited"
  else .resp (some 200) none "ok"

/-- A service configured with a small `base_delay` (permitted by
`configure_limit`) and no jitter, where the source's `max(0.1, delay)` floor
is visible. -/
def cfgSmallDelay : ServiceConfig :=
  { calls_per_minute := 60, max_retries := 1, base_delay := 1/20,
    max_delay := 60, jitter := 0 }

/-- A run whose first attempt raises a timeout and whose second succeeds. -/
def outcomesOneTimeout : ℕ → AttemptOutcome := fun n =>
  if n = 0 then .exn "timeout" else .resp (some 200) none "ok"

end RateLimiter

/-! ## In-memory cache (`apps/api/app/cache/memory.py`) -/

namespace Cache

/-- The `self.cache` dictionary of `MemoryCache`: each key maps to an item
`{"value": v, "expires_at": e}` with `e` absent (`None`) for entries without
expiration.  The dictionary is modelled as an association list whose
semantics are given by `lookupEntry`. -/
abbrev Store (V : Type) := List (String × V × Option ℚ)

/-- Dictionary lookup (`key in self.cache` / `self.cache[key]`). -/
def lookupEntry {V : Type} : Store V → String → Option (V × Option ℚ)
  | [], _ => none
  | (k2, v, e) :: rest, k => if k2 = k then some (v, e) else lookupEntry rest k

/-- Dictionary deletion (`del self.cache[key]`, `MemoryCache.delete`). -/
def eraseKey {V : Type} (c : Store V) (k : String) : Store V :=
  c.filter (fun ent => ent.1 != k)

/-- `MemoryCache.set` body (memory.py lines 83–96): compute `expires_at`
(`None` unless `ttl` is truthy, i.e. present and nonzero) and store the item;
returns `True`.  `now` is `datetime.utcnow()` expressed as a rational. -/
def memSet {V : Type} (c : Store V) (k : String) (v : V) (ttl : Option ℚ)
    (now : ℚ) : Bool × Store V :=
  let expires_at : Option ℚ :=
    match ttl with
    | none => none
    | some t => if t = 0 then none else some (now + t)
  (true, (k, v, expires_at) :: eraseKey c k)

/-- `MemoryCache.get` body (memory.py lines 45–62): missing key gives
`None`; an entry whose `expires_at` is set and strictly in the past is
deleted and gives `None`; otherwise the value is returned. -/
def memGet {V : Type} (c : Store V) (k : String) (now : ℚ) :
    Option V × Store V :=
  match lookupEntry c k with
  | none => (none, c)
  | some (v, expires_at) =>
    match expires_at with
    | some e => if e < now then (none, eraseKey c k) else (some v, c)
    | none => (some v, c)

/-- The body of `MemoryCache.get` viewed as a fallible computation: the
`try` block either raises (an internal fault, message `fault`) or completes
normally. -/
def memGetBody {V : Type} (c : Store V) (k : String) (now : ℚ)
    (fault : Option String) : Except String (Option V × Store V) :=
  match fault with
  | some msg => .error msg
  | none => .ok (memGet c k now)

/-- `MemoryCache.get` with its `except Exception` handler (memory.py lines
64–66): any internal error degrades to a cache miss (`None`), never a raised
error. -/
def memGetSafe {V : Type} (c : Store V) (k : String) (now : ℚ)
    (fault : Option String) : Option V × Store V :=
  match memGetBody c k now fault with
  | .ok r => r
  | .error _ => (none, c)

/-- The body of `MemoryCache.set` viewed as a fallible computation. -/
def memSetBody {V : Type} (c : Store V) (k : String) (v : V) (ttl : Option ℚ)
    (now : ℚ) (fault : Option String) : Except String (Bool × Store V) :=
  match fault with
  | some msg => .error msg
  | none => .ok (memSet c k v ttl now)

/-- `MemoryCache.set` with its `except Exception` handler (memory.py lines
98–100): any internal error degrades to returning `False`, never a raised
error. -/
def memSetSafe {V : Type} (c : Store V) (k : String) (v : V) (ttl : Option ℚ)
    (now : ℚ) (fault : Option String) : Bool × Store V :=
  match memSetBody c k v ttl now fault with
  | .ok r => r
  | .error _ => (false, c)

end Cache

/-! ## ETL pipeline (`apps/api/app/etl/pipeline.py`) -/

namespace Etl

end Etl

end DerivativesTracking

namespace DerivativesTracking

open Risk

/-- C1 (code bug): the claimed composite can never be produced.  Evaluating
the `base_scores` dict literal raises `AttributeError` on its first key
`RiskTier.CASH_CORE` — not a member of the enum `scoring.py` imports — so
engine construction fails, and every scoring run (in particular every run
with at least 7 price points) propagates that error instead of returning a
weighted clamped score. -/
theorem C1_engine_crashes_before_scoring :
    riskScoringEngine_init = .error "AttributeError: CASH_CORE"
    ∧ ∀ (prices volumes : List ℚ) (tier : RiskTier),
        calculate_asset_risk_score_run prices volumes tier
          = .error "AttributeError: CASH_CORE" :=
  ⟨rfl, fun _ _ _ => rfl⟩

/-- C2 (code bug): with fewer than 7 price points the engine is supposed to
return the base tier score, but no run reaches that branch — construction
raises first.  Evaluated at the empty history for every tier the imported
enum actually has. -/
theorem C2_short_history_never_returns_base :
    ∀ (volumes : List ℚ) (tier : RiskTier),
      calculate_asset_risk_score_run [] volumes tier
        = .error "AttributeError: CASH_CORE" :=
  fun _ _ => rfl

/-! ### Helper lemmas about constant price series -/

theorem sum_replicate_rat (n : ℕ) (a : ℚ) : (List.replicate n a).sum = n * a := by
  induction n with
  | zero => simp
  | succ k ih =>
      rw [List.replicate_succ, List.sum_cons, ih]
      push_cast
      ring

theorem zipWith_replicate_same (f : ℚ → ℚ → ℚ) (n : ℕ) (a b : ℚ) :
    List.zipWith f (List.replicate n a) (List.replicate n b) =
      List.replicate n (f a b) := by
  induction n with
  | zero => rfl
  | succ k ih => simp [List.replicate_succ, ih]

theorem simpleReturns_replicate (n : ℕ) (p : ℚ) :
    simpleReturns (List.replicate (n + 1) p) = List.replicate n 0 := by
  induction n with
  | zero => rfl
  | succ k ih =>
      have hstep : List.replicate (k + 2) p = p :: p :: List.replicate k p := by
        simp [List.replicate_succ]
      have htail : simpleReturns (List.replicate (k + 2) p)
          = (p - p) / p :: simpleReturns (List.replicate (k + 1) p) := by
        rw [hstep]
        simp [simpleReturns, List.replicate_succ]
      rw [htail, ih]
      simp [List.replicate_succ]

theorem popVariance_replicate_zero (n : ℕ) :
    popVariance (List.replicate n (0 : ℚ)) = 0 := by
  simp [popVariance, listMean, sum_replicate_rat]

theorem runningMaxAux_replicate (n : ℕ) (p : ℚ) :
    runningMaxAux p (List.replicate n p) = List.replicate n p := by
  induction n with
  | zero => rfl
  | succ k ih => simp [List.replicate_succ, runningMaxAux, ih]

theorem runningMax_replicate (n : ℕ) (p : ℚ) :
    runningMax (List.replicate n p) = List.replicate n p := by
  cases n with
  | zero => rfl
  | succ k => simp [List.replicate_succ, runningMax, runningMaxAux_replicate]

theorem foldl_max_zero_replicate (n : ℕ) :
    List.foldl max (0 : ℚ) (List.replicate n 0) = 0 := by
  induction n with
  | zero => rfl
  | succ k ih => simp [List.replicate_succ, ih]

theorem listMax_replicate_zero (n : ℕ) :
    listMax (List.replicate n (0 : ℚ)) = 0 := by
  cases n with
  | zero => rfl
  | succ k => simp [List.replicate_succ, listMax, foldl_max_zero_replicate]

/-- A constant price series of length at least 2 has volatility score 1. -/
theorem volatility_score_constant (n : ℕ) (p : ℚ) (h : 2 ≤ n) :
    calculate_volatility_score (List.replicate n p) = 1 := by
  obtain ⟨m, rfl⟩ : ∃ m, n = m + 1 := ⟨n - 1, by omega⟩
  unfold calculate_volatility_score
  rw [if_neg (by simp; omega)]
  rw [simpleReturns_replicate, popVariance_replicate_zero]
  norm_num

/-- A constant price series of length at least 2 has drawdown score 1. -/
theorem drawdown_score_constant (n : ℕ) (p : ℚ) (h : 2 ≤ n) :
    calculate_drawdown_score (List.replicate n p) = 1 := by
  unfold calculate_drawdown_score
  rw [if_neg (by simp; omega)]
  rw [runningMax_replicate, zipWith_replicate_same]
  simp only [sub_self, zero_div, listMax_replicate_zero]
  norm_num

/-- Mean volume above $1B gives liquidity score 1. -/
theorem liquidity_score_high_volume (volumes : List ℚ) (hne : volumes ≠ [])
    (hvol : 1000000000 < volumes.sum / volumes.length) :
    calculate_liquidity_score volumes = 1 := by
  unfold calculate_liquidity_score
  rw [if_neg (by simpa [List.isEmpty_iff] using hne), if_pos hvol]

/-- C3 (code bug): the market components of the spec's example do evaluate
to 1.0 each (their method bodies never touch the tier table), but the
example's composite is unrealizable: the example's tier `CASH_CORE` is not a
member of the imported enum, and for every tier that does exist the engine
crashes at construction, before any component is combined. -/
theorem C3_example_components_but_engine_crashes :
    calculate_volatility_score (List.replicate 7 (100 : ℚ)) = 1
    ∧ calculate_drawdown_score (List.replicate 7 (100 : ℚ)) = 1
    ∧ calculate_liquidity_score (List.replicate 7 (2000000000 : ℚ)) = 1
    ∧ riskTier_attr "CASH_CORE" = none
    ∧ ∀ tier : RiskTier,
        calculate_asset_risk_score_run (List.replicate 7 100)
          (List.replicate 7 2000000000) tier
          = .error "AttributeError: CASH_CORE" := by
  refine ⟨volatility_score_constant 7 100 (by omega),
    drawdown_score_constant 7 100 (by omega), ?_, rfl, fun _ => rfl⟩
  apply liquidity_score_high_volume
  · simp
  · rw [sum_replicate_rat]
    norm_num

/-- C10 (code bug): the six-entry tier table never exists.  None of its six
key names is a member of the enum `scoring.py` imports, whose members are
exactly `LOW, MEDIUM, HIGH, EXTREME`, so `__init__` raises `AttributeError`
at the first key and neither the direct-return path for short histories nor
the composite's base term is ever evaluated. -/
theorem C10_tier_table_never_exists :
    riskTier_attr "CASH_CORE" = none
    ∧ riskTier_attr "INCOME" = none
    ∧ riskTier_attr "INCOME_PLUS" = none
    ∧ riskTier_attr "BALANCED" = none
    ∧ riskTier_attr "GROWTH" = none
    ∧ riskTier_attr "AGGRESSIVE" = none
    ∧ riskScoringEngine_init = .error "AttributeError: CASH_CORE"
    ∧ (∀ tier : RiskTier,
        tier = .LOW ∨ tier = .MEDIUM ∨ tier = .HIGH ∨ tier = .EXTREME) := by
  refine ⟨rfl, rfl, rfl, rfl, rfl, rfl, rfl, fun tier => ?_⟩
  cases tier <;> simp

/-! ### Rate limiter: spacing invariant (C7) -/

open RateLimiter

/-- One `wait_for_rate_limit` call records a dispatch time at least one
interval after the previously recorded one, for any clock reading. -/
theorem wait_for_rate_limit_spacing (iv last now eps : ℚ) (heps : 0 ≤ eps) :
    last + iv ≤ wait_for_rate_limit iv last now eps := by
  unfold wait_for_rate_limit
  split
  · linarith
  · next h =>
      push_neg at h
      linarith

/-- Chained dispatches gain at least one interval per call. -/
theorem last_dispatch_lower_bound (iv : ℚ) :
    ∀ (calls : List (ℚ × ℚ)) (d : ℚ), (∀ c ∈ calls, 0 ≤ c.2) →
      d + (calls.length : ℚ) * iv ≤ last_dispatch iv d calls := by
  intro calls
  induction calls with
  | nil =>
      intro d _
      simp [last_dispatch]
  | cons c rest ih =>
      intro d h
      obtain ⟨now, eps⟩ := c
      have h0 : 0 ≤ eps := h (now, eps) (List.mem_cons_self _ _)
      have hrest : ∀ c ∈ rest, 0 ≤ c.2 := fun c hc => h c (List.mem_cons_of_mem _ hc)
      have hstep := wait_for_rate_limit_spacing iv d now eps h0
      have htail := ih (wait_for_rate_limit iv d now eps) hrest
      rw [last_dispatch]
      simp only [List.length_cons]
      push_cast
      linarith

/-- C7: a service configured with a positive `calls_per_minute` has a
positive minimum spacing `60 / calls_per_minute`, and `N = rest.length + 1`
consecutive calls span at least `(N - 1)` spacings: the last recorded
dispatch time exceeds the first by at least `rest.length` intervals, each
dispatch waiting until the spacing has elapsed before recording. -/
theorem C7_spacing_invariant (cfg : ServiceConfig) (last0 now0 eps0 : ℚ)
    (rest : List (ℚ × ℚ)) (hcpm : 0 < cfg.calls_per_minute)
    (hrest : ∀ c ∈ rest, 0 ≤ c.2) :
    0 < interval_of cfg
    ∧ (rest.length : ℚ) * interval_of cfg ≤
        last_dispatch (interval_of cfg)
            (wait_for_rate_limit (interval_of cfg) last0 now0 eps0) rest
          - wait_for_rate_limit (interval_of cfg) last0 now0 eps0 := by
  constructor
  · unfold interval_of
    positivity
  · have := last_dispatch_lower_bound (interval_of cfg) rest
      (wait_for_rate_limit (interval_of cfg) last0 now0 eps0) hrest
    linarith

/-- Witness for C7: three calls under the default 60/minute configuration
span at least two seconds of recorded dispatch time. -/
theorem C7_spacing_invariant_witness :
    0 < interval_of defaultConfig
    ∧ ((([((0:ℚ), (0:ℚ)), ((0:ℚ), (0:ℚ))] : List (ℚ × ℚ)).length : ℚ)
          * interval_of defaultConfig ≤
        last_dispatch (interval_of defaultConfig)
            (wait_for_rate_limit (interval_of defaultConfig) 0 0 0)
            [((0:ℚ), (0:ℚ)), ((0:ℚ), (0:ℚ))]
          - wait_for_rate_limit (interval_of defaultConfig) 0 0 0) := by
  refine C7_spacing_invariant defaultConfig 0 0 0 [(0, 0), (0, 0)] (by norm_num [defaultConfig]) ?_
  intro c hc
  fin_cases hc <;> norm_num

/-! ### Memory cache: TTL semantics (C8) and error degradation (C9) -/

open Cache

/-- Deleting a key removes every entry under it. -/
theorem lookupEntry_eraseKey {V : Type} (k : String) :
    ∀ c : Store V, lookupEntry (eraseKey c k) k = none := by
  intro c
  induction c with
  | nil => rfl
  | cons ent rest ih =>
      obtain ⟨k2, v, e⟩ := ent
      by_cases h : k2 = k
      · simpa [eraseKey, List.filter_cons, h] using ih
      · simpa [eraseKey, List.filter_cons, h, lookupEntry] using ih

/-- C8: `set(k, v, ttl)` with positive `ttl` succeeds; a `get(k)` strictly
before the expiry instant returns `v`; a `get(k)` strictly after the expiry
instant returns absent and deletes the entry from the store. -/
theorem C8_set_then_get_ttl {V : Type} (c : Store V) (k : String) (v : V)
    (ttl now t1 : ℚ) (httl : 0 < ttl) :
    (memSet c k v (some ttl) now).1 = true
    ∧ (t1 < now + ttl → (memGet (memSet c k v (some ttl) now).2 k t1).1 = some v)
    ∧ (now + ttl < t1 →
        (memGet (memSet c k v (some ttl) now).2 k t1).1 = none
        ∧ lookupEntry (memGet (memSet c k v (some ttl) now).2 k t1).2 k = none) := by
  have httl0 : ttl ≠ 0 := ne_of_gt httl
  have hstore : (memSet c k v (some ttl) now).2
      = (k, v, some (now + ttl)) :: eraseKey c k := by
    simp [memSet, httl0]
  refine ⟨rfl, ?_, ?_⟩
  · intro hbefore
    rw [hstore]
    simp [memGet, lookupEntry, not_lt_of_gt hbefore]
  · intro hafter
    rw [hstore]
    constructor
    · simp [memGet, lookupEntry, hafter]
    · simp only [memGet, lookupEntry, if_pos rfl, hafter, if_true]
      have : eraseKey ((k, v, some (now + ttl)) :: eraseKey c k) k
          = eraseKey (eraseKey c k) k := by
        simp [eraseKey, List.filter_cons]
      rw [this]
      exact lookupEntry_eraseKey k _

/-- Witness for C8 at a concrete store. -/
theorem C8_set_then_get_ttl_witness :
    (memGet (memSet ([] : Store ℕ) "price" 42 (some 10) 0).2 "price" 5).1 = some 42
    ∧ (memGet (memSet ([] : Store ℕ) "price" 42 (some 10) 0).2 "price" 11).1 = none :=
  ⟨(C8_set_then_get_ttl [] "price" 42 10 0 5 (by norm_num)).2.1 (by norm_num),
   ((C8_set_then_get_ttl [] "price" 42 10 0 11 (by norm_num)).2.2 (by norm_num)).1⟩

/-- C9: an internal error inside `get` degrades to a cache miss (`None`,
store untouched) and inside `set` degrades to `False`; neither operation
ever propagates the error (both are total functions of their inputs), and
without a fault each behaves as its body. -/
theorem C9_cache_errors_degrade {V : Type} (c : Store V) (k : String) (v : V)
    (ttl : Option ℚ) (now : ℚ) (fault : Option String) :
    (∀ msg, fault = some msg →
        memGetSafe c k now fault = (none, c)
        ∧ memSetSafe c k v ttl now fault = (false, c))
    ∧ (fault = none →
        memGetSafe c k now fault = memGet c k now
        ∧ memSetSafe c k v ttl now fault = memSet c k v ttl now) := by
  constructor
  · intro msg h
    subst h
    exact ⟨rfl, rfl⟩
  · intro h
    subst h
    exact ⟨rfl, rfl⟩

/-- Witness for C9: a concrete faulted `get` misses and a concrete faulted
`set` reports failure. -/
theorem C9_cache_errors_degrade_witness :
    memGetSafe ([("price", 42, none)] : Store ℕ) "price" 0 (some "storage error")
      = (none, [("price", 42, none)])
    ∧ memSetSafe ([("price", 42, none)] : Store ℕ) "price" 7 (some 10) 0
        (some "storage error") = (false, [("price", 42, none)]) :=
  (C9_cache_errors_degrade [("price", 42, none)] "price" 7 (some 10) 0
    (some "storage error")).1 "storage error" rfl

/-! ### ETL pipeline: partial-failure tolerance (C4) -/

open Etl

/-- The delays slept by `with_retry` do not depend on any `Retry-After`
header: two runs whose attempt outcomes agree except on `Retry-After`
produce identical delay sequences. -/
theorem withRetryAux_delays_congr (cfg : ServiceConfig) (retrySet : List ℕ)
    (o1 o2 : ℕ → AttemptOutcome) (draws : ℕ → ℚ)
    (hsame : ∀ n, sameExceptRetryAfter (o1 n) (o2 n)) :
    ∀ (rem attempt : ℕ),
      (withRetryAux cfg retrySet o1 draws attempt rem).1
        = (withRetryAux cfg retrySet o2 draws attempt rem).1 := by
  intro rem
  induction rem with
  | zero => intro attempt; rfl
  | succ r ih =>
      intro attempt
      have h := hsame attempt
      cases h1 : o1 attempt with
      | exn e1 =>
          cases h2 : o2 attempt with
          | exn e2 =>
              rw [h1, h2] at h
              simp only [sameExceptRetryAfter] at h
              subst h
              by_cases hlt : attempt < cfg.max_retries
              · simp [withRetryAux, h1, h2, hlt, ih (attempt + 1)]
              · simp [withRetryAux, h1, h2, hlt]
          | resp st2 ra2 b2 =>
              rw [h1, h2] at h
              simp only [sameExceptRetryAfter] at h
      | resp st1 ra1 b1 =>
          cases h2 : o2 attempt with
          | exn e2 =>
              rw [h1, h2] at h
              simp only [sameExceptRetryAfter] at h
          | resp st2 ra2 b2 =>
              rw [h1, h2] at h
              simp only [sameExceptRetryAfter] at h
              obtain ⟨hst, hb⟩ := h
              subst hst
              subst hb
              by_cases hcond : isRetryStatus retrySet st1 = true ∧ attempt < cfg.max_retries
              · simp [withRetryAux, h1, h2, hcond, ih (attempt + 1)]
              · simp [withRetryAux, h1, h2, hcond]

/-- C5 (amended): `with_retry` ignores the `Retry-After` header entirely —
the delay sequence of a run is unchanged by any change to the `Retry-After`
values of its responses.  (The CoinGecko adapter's private fetch loop, not
`with_retry`, is where a `retry-after` header is honored.) -/
theorem C5_delays_ignore_retry_after (cfg : ServiceConfig) (retrySet : List ℕ)
    (o1 o2 : ℕ → AttemptOutcome) (draws : ℕ → ℚ)
    (hsame : ∀ n, sameExceptRetryAfter (o1 n) (o2 n)) :
    (with_retry cfg retrySet o1 draws).1 = (with_retry cfg retrySet o2 draws).1 :=
  withRetryAux_delays_congr cfg retrySet o1 o2 draws hsame (cfg.max_retries + 1) 0

/-- Witness for C5 (amended): dropping `Retry-After: 3` from the 429
response leaves the delay sequence unchanged. -/
theorem C5_delays_ignore_retry_after_witness :
    (with_retry defaultConfig default_retry_status_codes outcomesRetryAfter
        (fun _ => 0)).1
      = (with_retry defaultConfig default_retry_status_codes outcomesNoRetryAfter
        (fun _ => 0)).1 :=
  C5_delays_ignore_retry_after defaultConfig default_retry_status_codes
    outcomesRetryAfter outcomesNoRetryAfter (fun _ => 0)
    (fun n => by
      by_cases h : n = 0 <;>
        simp [outcomesRetryAfter, outcomesNoRetryAfter, h, sameExceptRetryAfter])

/-- Counterexample to C5 as stated: a 429 response carrying `Retry-After: 3`
under the default configuration is followed by a computed backoff wait of
exactly 1 second (a valid zero jitter draw), which is less than the 3
seconds the claim requires. -/
theorem C5_retry_after_counterexample :
    outcomesRetryAfter 0 = .resp (some 429) (some 3) "rate limited"
    ∧ (with_retry defaultConfig default_retry_status_codes outcomesRetryAfter
        (fun _ => 0)).1 = [1]
    ∧ ¬ ((3 : ℚ) ≤ 1)
    ∧ |(0 : ℚ)| ≤ defaultConfig.jitter
        * min defaultConfig.max_delay (defaultConfig.base_delay * 2 ^ 0) := by
  refine ⟨rfl, ?_, by norm_num, by norm_num [defaultConfig]⟩
  norm_num [with_retry, withRetryAux, outcomesRetryAfter, defaultConfig,
    calculate_retry_delay, isRetryStatus, default_retry_status_codes]

/-- The `k`-th delay in a `withRetryAux` trace starting at `attempt` follows
the exponential-backoff-with-jitter formula, floored at 0.1 seconds, for
index `attempt + k`. -/
theorem withRetryAux_delay_formula (cfg : ServiceConfig) (retrySet : List ℕ)
    (outcomes : ℕ → AttemptOutcome) (draws : ℕ → ℚ) :
    ∀ (rem attempt k : ℕ),
      k < (withRetryAux cfg retrySet outcomes draws attempt rem).1.length →
      (withRetryAux cfg retrySet outcomes draws attempt rem).1.getD k 0
        = calculate_retry_delay cfg (attempt + k) (draws (attempt + k)) := by
  intro rem
  induction rem with
  | zero =>
      intro attempt k hk
      simp [withRetryAux] at hk
  | succ r ih =>
      intro attempt k hk
      cases h1 : outcomes attempt with
      | exn e =>
          by_cases hlt : attempt < cfg.max_retries
          · simp only [withRetryAux, h1] at hk ⊢
            rw [if_pos hlt] at hk ⊢
            cases k with
            | zero => simp
            | succ k2 =>
                have hk2 : k2 < (withRetryAux cfg retrySet outcomes draws
                    (attempt + 1) r).1.length := by
                  simpa using hk
                have hrec := ih (attempt + 1) k2 hk2
                have hidx : attempt + (k2 + 1) = attempt + 1 + k2 := by omega
                rw [hidx]
                simpa using hrec
          · simp only [withRetryAux, h1] at hk
            rw [if_neg hlt] at hk
            simp at hk
      | resp st ra body =>
          by_cases hcond : isRetryStatus retrySet st = true ∧ attempt < cfg.max_retries
          · simp only [withRetryAux, h1] at hk ⊢
            rw [if_pos hcond] at hk ⊢
            cases k with
            | zero => simp
            | succ k2 =>
                have hk2 : k2 < (withRetryAux cfg retrySet outcomes draws
                    (attempt + 1) r).1.length := by
                  simpa using hk
                have hrec := ih (attempt + 1) k2 hk2
                have hidx : attempt + (k2 + 1) = attempt + 1 + k2 := by omega
                rw [hidx]
                simpa using hrec
          · simp only [withRetryAux, h1] at hk
            rw [if_neg hcond] at hk
            simp at hk

/-- If every attempt raises, the loop exhausts its retries and re-raises the
exception of the final attempt (attempt number `max_retries`). -/
theorem withRetryAux_all_exn (cfg : ServiceConfig) (retrySet : List ℕ)
    (outcomes : ℕ → AttemptOutcome) (draws : ℕ → ℚ) (e : ℕ → String)
    (hexn : ∀ n, outcomes n = .exn (e n)) :
    ∀ (rem attempt : ℕ), 1 ≤ rem → attempt + rem = cfg.max_retries + 1 →
      (withRetryAux cfg retrySet outcomes draws attempt rem).2
        = .raised (e cfg.max_retries) := by
  intro rem
  induction rem with
  | zero =>
      intro attempt h0
      omega
  | succ r ih =>
      intro attempt _ hsum
      by_cases hlt : attempt < cfg.max_retries
      · have hr : 1 ≤ r := by omega
        simp only [withRetryAux, hexn attempt]
        rw [if_pos hlt]
        exact ih (attempt + 1) hr (by omega)
      · have heq : attempt = cfg.max_retries := by omega
        subst heq
        simp [withRetryAux, hexn cfg.max_retries]

/-- C6 (amended): each delay slept by `with_retry` before attempt `k + 1`
equals `min(maxDelay, baseDelay * 2^k)` plus the drawn jitter, additionally
floored at 0.1 seconds (`max(0.1, ...)` in `calculate_retry_delay`); and
when every attempt raises a retried exception, the exception of the final
attempt is propagated to the caller after `maxRetries` retries. -/
theorem C6_backoff_delays_and_propagation (cfg : ServiceConfig)
    (retrySet : List ℕ) (outcomes : ℕ → AttemptOutcome) (draws : ℕ → ℚ)
    (e : ℕ → String) :
    (∀ k : ℕ, k < (with_retry cfg retrySet outcomes draws).1.length →
        (with_retry cfg retrySet outcomes draws).1.getD k 0
          = max (1/10) (min cfg.max_delay (cfg.base_delay * 2 ^ k) + draws k))
    ∧ ((∀ n, outcomes n = .exn (e n)) →
        (with_retry cfg retrySet outcomes draws).2 = .raised (e cfg.max_retries)) := by
  constructor
  · intro k hk
    have := withRetryAux_delay_formula cfg retrySet outcomes draws
      (cfg.max_retries + 1) 0 k hk
    simpa [with_retry, calculate_retry_delay] using this
  · intro hexn
    exact withRetryAux_all_exn cfg retrySet outcomes draws e hexn
      (cfg.max_retries + 1) 0 (by omega) (by omega)

/-- Witness for C6 (amended): one timeout under the default configuration is
followed by a 1-second delay matching the formula, and a run of nothing but
timeouts propagates the last timeout. -/
theorem C6_backoff_delays_and_propagation_witness :
    (with_retry defaultConfig default_retry_status_codes outcomesOneTimeout
        (fun _ => 0)).1.getD 0 0
      = max (1/10) (min defaultConfig.max_delay
          (defaultConfig.base_delay * 2 ^ 0) + 0)
    ∧ (with_retry defaultConfig default_retry_status_codes
        (fun _ => .exn "timeout") (fun _ => 0)).2 = .raised "timeout" :=
  ⟨(C6_backoff_delays_and_propagation defaultConfig
      default_retry_status_codes outcomesOneTimeout (fun _ => 0)
      (fun _ => "timeout")).1 0
      (by norm_num [with_retry, withRetryAux, outcomesOneTimeout, defaultConfig,
        calculate_retry_delay, isRetryStatus, default_retry_status_codes]),
   (C6_backoff_delays_and_propagation defaultConfig default_retry_status_codes
      (fun _ => .exn "timeout") (fun _ => 0) (fun _ => "timeout")).2
      (fun _ => rfl)⟩

/-- Counterexample to C6 as stated: under a configuration with
`base_delay = 0.05` and zero jitter (so the only valid draw is 0), the claim
requires the single retry delay to be `min(60, 0.05 * 2^0) + 0 = 0.05`
seconds, but the code's `max(0.1, ...)` floor makes it 0.1 seconds. -/
theorem C6_floor_counterexample :
    (with_retry cfgSmallDelay default_retry_status_codes outcomesOneTimeout
        (fun _ => 0)).1 = [1/10]
    ∧ min cfgSmallDelay.max_delay (cfgSmallDelay.base_delay * 2 ^ 0) + 0 = 1/20
    ∧ ((1 : ℚ)/10 ≠ 1/20)
    ∧ |(0 : ℚ)| ≤ cfgSmallDelay.jitter
        * min cfgSmallDelay.max_delay (cfgSmallDelay.base_delay * 2 ^ 0) := by
  refine ⟨?_, by norm_num [cfgSmallDelay], by norm_num, by norm_num [cfgSmallDelay]⟩
  norm_num [with_retry, withRetryAux, outcomesOneTimeout, cfgSmallDelay,
    calculate_retry_delay, isRetryStatus, default_retry_status_codes]

end DerivativesTracking
